import Mathlib

/-!
Shallow embedding of the remediation engine in
`src/wordfence/wordpress/remediator.py`, together with proofs of the
claims of the specification about it.

The remediator collaborates with external modules that are not part of the
source under verification (the file classifier in `identifier.py`, the noc1
API client, and the filesystem iteration helpers).  Those collaborators are
modelled abstractly: the classifier, the content source, the filesystem and
the traversal are parameters of the embedding, so the theorems quantify over
every possible behaviour of the collaborators while the control flow of
`remediator.py` itself is translated line by line.
-/

namespace Wordfence

/-- File paths; modelled as strings. -/
abbrev Path := String

/-- Byte strings; modelled as lists of byte values. -/
abbrev Bytes := List Nat

/-- Modelled from the spec: the `FileType` role tags produced by the external
identifier module (`src/wordfence/wordpress/identifier.py`, not under src/).
A closed set of role tags, one of which is `UNKNOWN`. -/
inductive FileType where
  | unknown
  | core
  | plugin
  | theme
deriving DecidableEq, Repr

/-- Modelled from the spec: the site context carried by a known-file
identity; it resolves the core version string (the identifier module is not
under src/). -/
structure Site where
  version : String
deriving DecidableEq, Repr

/-- Mirrors `site.get_version()` as called by `remediator.py`. -/
def Site.get_version (s : Site) : String := s.version

/-- Modelled from the spec: the extension descriptor (name and version) an
identity may carry when the file belongs to a plugin or theme (the
identifier module is not under src/). -/
structure Extension where
  name : String
  version : String
deriving DecidableEq, Repr

/-- Mirrors `extension.get_name()` as called by `remediator.py`. -/
def Extension.get_name (e : Extension) : String := e.name

/-- Modelled from the spec: `KnownFileIdentity` from the identifier module:
a file role, the path relative to the distribution root, an optional
extension descriptor, and the site context. -/
structure KnownFileIdentity where
  type : FileType
  local_path : Path
  extension : Option Extension
  site : Site
deriving DecidableEq, Repr

/-- Modelled from the spec: the polymorphic `FileIdentity` produced by the
external classifier: an unrecognized path (role `UNKNOWN`, carrying only the
path), a known file, or a directory-level `GroupIdentity` carrying a role
tag and the directory path. -/
inductive FileIdentity where
  | unknownId (path : Path)
  | known (k : KnownFileIdentity)
  | group (type : FileType) (path : Path)
deriving DecidableEq, Repr

/-- Role tag of any identity, mirroring the `identity.type` attribute read
by `remediator.py`. -/
def FileIdentity.type : FileIdentity → FileType
  | .unknownId _ => FileType.unknown
  | .known k => k.type
  | .group t _ => t

/-- Translation of `ApiException` from `src/wordfence/api/exceptions.py`
(module not under src/; only its message is observable here, through
`str(e)` in the warning line of `remediator.py`). -/
structure ApiException where
  message : String
deriving DecidableEq, Repr

/-- Log levels of the logging sink used by `remediator.py`. -/
inductive LogLevel where
  | debug
  | warning
  | error
deriving DecidableEq, Repr

/-- One emitted log line. -/
structure LogEntry where
  level : LogLevel
  message : String
deriving DecidableEq, Repr

/-- On-disk state: the byte content of each path, or `none` when no file
exists there. -/
abbrev FS := Path → Option Bytes

/-- Translation of `RemediationResult`: outcome record for one processed
path. -/
structure RemediationResult where
  path : Path
  identity : FileIdentity
  known : Bool
  remediated : Bool
  target_path : Path
deriving DecidableEq, Repr

/-- Translation of `RemediationResult.__init__`: `known` and `remediated`
default to `False` at call sites, and `target_path` defaults to `path` when
the argument is `None`. -/
def RemediationResult.init (path : Path) (identity : FileIdentity)
    (known : Bool) (remediated : Bool)
    (target_path : Option Path) : RemediationResult :=
  { path := path
    identity := identity
    known := known
    remediated := remediated
    target_path := target_path.getD path }

/-- Translation of `RemediationResult.__bool__`. -/
def RemediationResult.bool (r : RemediationResult) : Bool := r.remediated

/-- Modelled from the spec: the remote catalog client
`noc1.Client.get_wp_file_content` (module `src/wordfence/api/noc1.py` is not
under src/).  `remediator.py` calls it either with three positional
arguments (file role value, relative path, core version) or with the
extension name and extension version as two extra positional arguments; the
two extra arguments are modelled as `Option`s, `none` standing for the
three-argument call.  The call returns the canonical bytes, `none` when the
catalog has no entry, or raises an `ApiException` (`Except.error`). -/
def Noc1Client : Type :=
  FileType → Path → String → Option String → Option String →
    Except ApiException (Option Bytes)

/-- Translation of `Noc1RemediationSource.get_correct_content`: dispatch on
`identity.extension is None`, call the client inside `try`, and on
`ApiException` log a warning naming the identity and the exception, then
return `None`.  `showK` is the external `__str__` rendering of the identity
used by the f-string.  Returns the content (or `none`) and the emitted log
lines. -/
def Noc1RemediationSource.get_correct_content
    (showK : KnownFileIdentity → String) (client : Noc1Client)
    (identity : KnownFileIdentity) : Option Bytes × List LogEntry :=
  let response :=
    match identity.extension with
    | none =>
        client identity.type identity.local_path identity.site.get_version
          none none
    | some ext =>
        client identity.type identity.local_path identity.site.get_version
          (some ext.get_name) (some ext.version)
  match response with
  | Except.ok content => (content, [])
  | Except.error e =>
      (none,
        [⟨LogLevel.warning,
          "Unable to fetch correct content for " ++ showK identity
            ++ " - " ++ e.message⟩])

/-- The single lookup request the source issues for an identity, written as
the dispatch of `get_correct_content` on the extension. -/
def noc1_lookup (client : Noc1Client) (identity : KnownFileIdentity) :
    Except ApiException (Option Bytes) :=
  match identity.extension with
  | none =>
      client identity.type identity.local_path identity.site.get_version
        none none
  | some ext =>
      client identity.type identity.local_path identity.site.get_version
        (some ext.get_name) (some ext.version)

/-- Reference implementation following the words of the specification: the lookup
request is formed from the file role, the relative path, and the core
version from the site context, and the extension name and version are passed
as the two additional lookup parameters exactly when the identity carries an
extension; on failure a warning is logged and "not available" is returned. -/
def spec_get_correct_content
    (showK : KnownFileIdentity → String) (client : Noc1Client)
    (identity : KnownFileIdentity) : Option Bytes × List LogEntry :=
  match
    client identity.type identity.local_path identity.site.get_version
      (identity.extension.map Extension.get_name)
      (identity.extension.map fun e => e.version) with
  | Except.ok content => (content, [])
  | Except.error e =>
      (none,
        [⟨LogLevel.warning,
          "Unable to fetch correct content for " ++ showK identity
            ++ " - " ++ e.message⟩])

/-- The external collaborators of `Remediator`, gathered as parameters:

* `identify` — the injected classifier (`FileIdentifier.identify`);
* `source` — `RemediationSource.get_correct_content` for the injected
  source, returning the fetched bytes (or `none`) together with any log
  lines it emits;
* `writeError` — outcome of the open-for-writing and write calls: `none` when the
  write succeeds, `some msg` when an `OSError` with message `msg` occurs;
* `showIdentity` — the string rendering of an identity used in log
  messages (`__str__` of the identity classes, external to src/);
* `resolve` — `pathlib_resolve`;
* `is_dir` — `Path.is_dir` on the resolved input;
* `iterate_files` — the file enumeration of `iterate_files` (symlink loops
  are absorbed by the loop callback of the enumeration, which only logs). -/
structure Env where
  identify : Path → FileIdentity
  source : FileIdentity → Option Bytes × List LogEntry
  writeError : Path → Option String
  showIdentity : FileIdentity → String
  resolve : Path → Path
  is_dir : Path → Bool
  iterate_files : Path → List Path

/-- Translation of `Remediator.remediate_file`.  Returns the result, the
filesystem after the call, and the log lines emitted, in order. -/
def Remediator.remediate_file (env : Env) (fs : FS) (path : Path)
    (target_path : Option Path) :
    RemediationResult × FS × List LogEntry :=
  let identity := env.identify path
  let result := RemediationResult.init path identity false false target_path
  if identity.type = FileType.unknown then
    (result, fs, [⟨LogLevel.warning, "Unable to identify " ++ path⟩])
  else
    let identifiedLog : List LogEntry :=
      [⟨LogLevel.debug,
        "Identified " ++ path ++ " as " ++ env.showIdentity identity⟩]
    let fetched := env.source identity
    match fetched.1 with
    | none =>
        (result, fs,
          identifiedLog ++ fetched.2 ++
            [⟨LogLevel.warning,
              "Unable to determine correct content for "
                ++ env.showIdentity identity ++ ", skipping remediation..."⟩])
    | some content =>
        let result := { result with known := true }
        let overwriteLog : List LogEntry :=
          identifiedLog ++ fetched.2 ++
            [⟨LogLevel.debug, "Overwriting " ++ path ++ "..."⟩]
        match env.writeError path with
        | none =>
            ({ result with remediated := true },
              fun p => if p = path then some content else fs p,
              overwriteLog)
        | some err =>
            (result, fs,
              overwriteLog ++
                [⟨LogLevel.error,
                  "An error occurred while attempting to remediate "
                    ++ path ++ ": " ++ err⟩])

/-- Helper for the directory branch of `Remediator.remediate`: yields
`remediate_file(pathlib_resolve(file), path)` for each enumerated file,
threading the filesystem. -/
def Remediator.remediate_files (env : Env) (root : Path) :
    List Path → FS → List RemediationResult × FS × List LogEntry
  | [], fs => ([], fs, [])
  | f :: rest, fs =>
      let step := Remediator.remediate_file env fs (env.resolve f) (some root)
      let next := Remediator.remediate_files env root rest step.2.1
      (step.1 :: next.1, next.2.1, step.2.2 ++ next.2.2)

/-- Translation of `Remediator.remediate`.  The Python generator is modelled
as the list of results it yields, together with the final filesystem and the
emitted log lines.  The `input_count` telemetry counter is omitted: it does
not influence any produced result. -/
def Remediator.remediate (env : Env) (fs : FS) (path0 : Path) :
    List RemediationResult × FS × List LogEntry :=
  let path := env.resolve path0
  if env.is_dir path then
    match env.iterate_files path with
    | [] =>
        ([RemediationResult.init path
            (FileIdentity.group FileType.unknown path) false false none],
          fs, [])
    | f :: rest => Remediator.remediate_files env path (f :: rest) fs
  else
    let step := Remediator.remediate_file env fs path none
    ([step.1], step.2.1, step.2.2)

/-! Concrete fixtures used by counterexamples and witnesses. -/

/-- A concrete site context. -/
def siteA : Site := ⟨"6.4.2"⟩

/-- A concrete known-file identity without an extension. -/
def idCore : KnownFileIdentity := ⟨FileType.core, "wp-load.php", none, siteA⟩

/-- A concrete identity rendering. -/
def showKA : KnownFileIdentity → String := fun _ => "identity"

/-- A client whose lookup always raises an `ApiException`. -/
def clientFail : Noc1Client := fun _ _ _ _ _ => Except.error ⟨"HTTP 500"⟩

/-- A concrete starting filesystem with one file. -/
def fsA : FS := fun p => if p = "site/index.php" then some [60, 63] else none

/-- Baseline environment: every path classifies as a core known file, the
source always returns the bytes `[1, 2, 3]`, writes succeed, paths resolve
to themselves, and nothing is a directory. -/
def envBase : Env :=
  { identify := fun p => FileIdentity.known ⟨FileType.core, p, none, siteA⟩
    source := fun _ => (some [1, 2, 3], [])
    writeError := fun _ => none
    showIdentity := fun _ => "identity"
    resolve := fun p => p
    is_dir := fun _ => false
    iterate_files := fun _ => [] }

/-- Baseline environment whose source never has content. -/
def envNoContent : Env := { envBase with source := fun _ => (none, []) }

/-- Baseline environment whose classifier recognizes nothing. -/
def envUnknown : Env :=
  { envBase with identify := fun p => FileIdentity.unknownId p }

/-- Environment with one directory "site" containing one file "f" that
resolves to "site/f". -/
def envDir : Env :=
  { envBase with
    is_dir := fun p => p == "site"
    resolve := fun p => if p = "f" then "site/f" else p
    iterate_files := fun p => if p = "site" then ["f"] else [] }

/-- Environment with one directory "site" that enumerates no files. -/
def envEmptyDir : Env := { envBase with is_dir := fun p => p == "site" }

/-! Helper lemmas about `remediate_file`, shared by several claims. -/

/-- In every branch of `remediate_file`, the result records the input path
unchanged. -/
theorem remediate_file_path (env : Env) (fs : FS) (path : Path)
    (target_path : Option Path) :
    (Remediator.remediate_file env fs path target_path).1.path = path := by
  unfold Remediator.remediate_file
  dsimp only
  split
  · rfl
  · split
    · rfl
    · split <;> rfl

/-- In every branch of `remediate_file`, the result records as
`target_path` the argument when supplied and the input path otherwise. -/
theorem remediate_file_target (env : Env) (fs : FS) (path : Path)
    (target_path : Option Path) :
    (Remediator.remediate_file env fs path target_path).1.target_path
      = target_path.getD path := by
  unfold Remediator.remediate_file
  dsimp only
  split
  · rfl
  · split
    · rfl
    · split <;> rfl

/-- In every branch of `remediate_file`, a remediated result is a known
result. -/
theorem remediate_file_known_of_remediated (env : Env) (fs : FS)
    (path : Path) (target_path : Option Path)
    (h : (Remediator.remediate_file env fs path target_path).1.remediated
          = true) :
    (Remediator.remediate_file env fs path target_path).1.known = true := by
  unfold Remediator.remediate_file at h ⊢
  dsimp only at h ⊢
  by_cases hk : (env.identify path).type = FileType.unknown
  · rw [if_pos hk] at h
    simp [RemediationResult.init] at h
  · rw [if_neg hk] at h ⊢
    rcases hs : (env.source (env.identify path)).1 with _ | content
    · simp only [hs] at h ⊢
      simp [RemediationResult.init] at h
    · simp only [hs] at h ⊢
      rcases hw : env.writeError path with _ | err <;> simp [hw]

/-- Every result yielded by the directory traversal loop is a
`remediate_file` result for some enumerated file, with the directory root
as the target-path argument. -/
theorem mem_remediate_files (env : Env) (root : Path) (files : List Path) :
    ∀ (fs : FS) (r : RemediationResult),
      r ∈ (Remediator.remediate_files env root files fs).1 →
      ∃ f fs0,
        r = (Remediator.remediate_file env fs0 (env.resolve f)
              (some root)).1 := by
  induction files with
  | nil =>
      intro fs r h
      simp [Remediator.remediate_files] at h
  | cons f rest ih =>
      intro fs r h
      simp only [Remediator.remediate_files, List.mem_cons] at h
      cases h with
      | inl h => exact ⟨f, fs, h⟩
      | inr h => exact ih _ r h

/-! Claim theorems. -/

/-- C1, counterexample to the claim as stated: a path classifying to a
non-Unknown identity whose source returns no content yields
`known = false`, not `known = true` as the claim asserts. -/
theorem c1_counterexample :
    (envNoContent.identify "site/index.php").type ≠ FileType.unknown ∧
    (envNoContent.source
        (envNoContent.identify "site/index.php")).1 = none ∧
    (Remediator.remediate_file envNoContent fsA "site/index.php"
        none).1.known = false := by
  decide

/-- C1 (amended): for every path whose classification yields a non-Unknown
identity but whose Remediation Source returns no content, `remediate_file`
returns a result with `known = false` and `remediated = false`: the early
return happens before the `known` flag is set. -/
theorem remediate_file_no_content_flags (env : Env) (fs : FS) (path : Path)
    (target_path : Option Path)
    (hk : (env.identify path).type ≠ FileType.unknown)
    (hs : (env.source (env.identify path)).1 = none) :
    (Remediator.remediate_file env fs path target_path).1.known = false ∧
    (Remediator.remediate_file env fs path target_path).1.remediated
      = false := by
  unfold Remediator.remediate_file
  dsimp only
  rw [if_neg hk]
  simp only [hs]
  simp [RemediationResult.init]

/-- Witness for the amended C1 at a concrete environment and path. -/
theorem remediate_file_no_content_flags_witness :
    ((envNoContent.identify "site/index.php").type ≠ FileType.unknown ∧
      (envNoContent.source
          (envNoContent.identify "site/index.php")).1 = none) ∧
    ((Remediator.remediate_file envNoContent fsA "site/index.php"
        none).1.known = false ∧
      (Remediator.remediate_file envNoContent fsA "site/index.php"
        none).1.remediated = false) :=
  ⟨⟨by decide, by decide⟩,
    remediate_file_no_content_flags envNoContent fsA "site/index.php" none
      (by decide) (by decide)⟩

/-- C2, counterexample to the claim as stated: with a distinct
`target_path`, a successful remediation leaves the target path absent and
puts the fetched bytes at `path` instead. -/
theorem c2_counterexample :
    (Remediator.remediate_file envBase fsA "site/index.php"
        (some "backup/index.php")).1.remediated = true ∧
    (Remediator.remediate_file envBase fsA "site/index.php"
        (some "backup/index.php")).1.target_path = "backup/index.php" ∧
    (Remediator.remediate_file envBase fsA "site/index.php"
        (some "backup/index.php")).2.1 "backup/index.php" = none ∧
    (Remediator.remediate_file envBase fsA "site/index.php"
        (some "backup/index.php")).2.1 "site/index.php"
      = some [1, 2, 3] := by
  decide

/-- C2 (amended): when content is fetched and the write succeeds, the bytes
are written to `path` itself; `target_path` is only recorded in the result
(defaulting to `path` when omitted) and is not the write destination, and
every location other than `path` is left unchanged. -/
theorem remediate_file_writes_path (env : Env) (fs : FS) (path : Path)
    (target_path : Option Path) (B : Bytes)
    (hk : (env.identify path).type ≠ FileType.unknown)
    (hs : (env.source (env.identify path)).1 = some B)
    (hw : env.writeError path = none) :
    (Remediator.remediate_file env fs path target_path).2.1 path
      = some B ∧
    (Remediator.remediate_file env fs path target_path).1.target_path
      = target_path.getD path ∧
    ∀ q, q ≠ path →
      (Remediator.remediate_file env fs path target_path).2.1 q = fs q := by
  refine ⟨?_, remediate_file_target env fs path target_path, ?_⟩
  · unfold Remediator.remediate_file
    dsimp only
    rw [if_neg hk]
    simp only [hs, hw]
    simp
  · unfold Remediator.remediate_file
    dsimp only
    rw [if_neg hk]
    simp only [hs, hw]
    simp
    intro q hq hq2
    exact absurd hq2 hq

/-- Witness for the amended C2 at a concrete environment, path and distinct
target path. -/
theorem remediate_file_writes_path_witness :
    ((envBase.identify "site/index.php").type ≠ FileType.unknown ∧
      (envBase.source (envBase.identify "site/index.php")).1
        = some [1, 2, 3] ∧
      envBase.writeError "site/index.php" = none ∧
      ("backup/index.php" : Path) ≠ "site/index.php") ∧
    ((Remediator.remediate_file envBase fsA "site/index.php"
        (some "backup/index.php")).2.1 "site/index.php" = some [1, 2, 3] ∧
      (Remediator.remediate_file envBase fsA "site/index.php"
        (some "backup/index.php")).1.target_path
        = (some "backup/index.php").getD "site/index.php" ∧
      (Remediator.remediate_file envBase fsA "site/index.php"
        (some "backup/index.php")).2.1 "backup/index.php"
        = fsA "backup/index.php") :=
  ⟨⟨by decide, by decide, by decide, by decide⟩,
    (remediate_file_writes_path envBase fsA "site/index.php"
        (some "backup/index.php") [1, 2, 3] (by decide) (by decide)
        (by decide)).1,
    (remediate_file_writes_path envBase fsA "site/index.php"
        (some "backup/index.php") [1, 2, 3] (by decide) (by decide)
        (by decide)).2.1,
    (remediate_file_writes_path envBase fsA "site/index.php"
        (some "backup/index.php") [1, 2, 3] (by decide) (by decide)
        (by decide)).2.2 "backup/index.php" (by decide)⟩

/-- C4: for every classified file whose source returns bytes `B` and whose
write succeeds, the result has `remediated = true` and the written file
(`path`) holds exactly the bytes `B` afterwards. -/
theorem remediate_file_success (env : Env) (fs : FS) (path : Path)
    (target_path : Option Path) (B : Bytes)
    (hk : (env.identify path).type ≠ FileType.unknown)
    (hs : (env.source (env.identify path)).1 = some B)
    (hw : env.writeError path = none) :
    (Remediator.remediate_file env fs path target_path).1.remediated
      = true ∧
    (Remediator.remediate_file env fs path target_path).2.1 path
      = some B := by
  unfold Remediator.remediate_file
  dsimp only
  rw [if_neg hk]
  simp only [hs, hw]
  simp

/-- Witness for C4 at a concrete environment and path. -/
theorem remediate_file_success_witness :
    ((envBase.identify "site/index.php").type ≠ FileType.unknown ∧
      (envBase.source (envBase.identify "site/index.php")).1
        = some [1, 2, 3] ∧
      envBase.writeError "site/index.php" = none) ∧
    ((Remediator.remediate_file envBase fsA "site/index.php"
        none).1.remediated = true ∧
      (Remediator.remediate_file envBase fsA "site/index.php"
        none).2.1 "site/index.php" = some [1, 2, 3]) :=
  ⟨⟨by decide, by decide, by decide⟩,
    remediate_file_success envBase fsA "site/index.php" none [1, 2, 3]
      (by decide) (by decide) (by decide)⟩

/-- C5: for every path classifying to the Unknown identity,
`remediate_file` returns `known = false`, `remediated = false`, and the
filesystem is unchanged at every location: no write is attempted. -/
theorem remediate_file_unknown_identity (env : Env) (fs : FS) (path : Path)
    (target_path : Option Path)
    (hk : (env.identify path).type = FileType.unknown) :
    (Remediator.remediate_file env fs path target_path).1.known = false ∧
    (Remediator.remediate_file env fs path target_path).1.remediated
      = false ∧
    ∀ q, (Remediator.remediate_file env fs path target_path).2.1 q
      = fs q := by
  unfold Remediator.remediate_file
  dsimp only
  rw [if_pos hk]
  simp [RemediationResult.init]

/-- Witness for C5 at a concrete environment and path. -/
theorem remediate_file_unknown_identity_witness :
    (envUnknown.identify "site/index.php").type = FileType.unknown ∧
    ((Remediator.remediate_file envUnknown fsA "site/index.php"
        none).1.known = false ∧
      (Remediator.remediate_file envUnknown fsA "site/index.php"
        none).1.remediated = false ∧
      (Remediator.remediate_file envUnknown fsA "site/index.php"
        none).2.1 "site/index.php" = fsA "site/index.php") :=
  ⟨by decide,
    (remediate_file_unknown_identity envUnknown fsA "site/index.php" none
      (by decide)).1,
    (remediate_file_unknown_identity envUnknown fsA "site/index.php" none
      (by decide)).2.1,
    (remediate_file_unknown_identity envUnknown fsA "site/index.php" none
      (by decide)).2.2 "site/index.php"⟩

/-- The single result produced by `remediate` on the baseline environment
and the file "site/index.php". -/
def rBase : RemediationResult :=
  ⟨"site/index.php",
    FileIdentity.known ⟨FileType.core, "site/index.php", none, siteA⟩,
    true, true, "site/index.php"⟩

/-- The single result produced by `remediate` on the directory environment
and the directory "site". -/
def rDir : RemediationResult :=
  ⟨"site/f", FileIdentity.known ⟨FileType.core, "site/f", none, siteA⟩,
    true, true, "site"⟩

/-- C3: every result produced by `remediate`, over any classifier, source
and filesystem outcome, satisfies the invariant that `remediated = true`
implies `known = true`. -/
theorem remediate_remediated_implies_known (env : Env) (fs : FS)
    (path0 : Path) (r : RemediationResult)
    (hr : r ∈ (Remediator.remediate env fs path0).1) :
    r.remediated = true → r.known = true := by
  intro hrem
  unfold Remediator.remediate at hr
  dsimp only at hr
  by_cases hd : env.is_dir (env.resolve path0) = true
  · rw [if_pos hd] at hr
    rcases hf : env.iterate_files (env.resolve path0) with _ | ⟨f, rest⟩ <;>
      simp only [hf] at hr
    · simp at hr
      subst hr
      simp [RemediationResult.init] at hrem
    · obtain ⟨g, fs0, hg⟩ :=
        mem_remediate_files env (env.resolve path0) (f :: rest) fs r hr
      subst hg
      exact remediate_file_known_of_remediated _ _ _ _ hrem
  · rw [if_neg hd] at hr
    simp at hr
    subst hr
    exact remediate_file_known_of_remediated _ _ _ _ hrem

/-- Witness for C3 at a concrete environment and result. -/
theorem remediate_remediated_implies_known_witness :
    rBase ∈ (Remediator.remediate envBase fsA "site/index.php").1 ∧
    (rBase.remediated = true → rBase.known = true) :=
  ⟨by decide,
    remediate_remediated_implies_known envBase fsA "site/index.php" rBase
      (by decide)⟩

/-- C6: a directory input whose enumeration yields zero files produces
exactly one result, carrying `GroupIdentity(Unknown, resolved path)` as its
identity and the resolved directory path as its path. -/
theorem remediate_empty_dir (env : Env) (fs : FS) (path0 : Path)
    (hd : env.is_dir (env.resolve path0) = true)
    (he : env.iterate_files (env.resolve path0) = []) :
    (Remediator.remediate env fs path0).1 =
      [RemediationResult.init (env.resolve path0)
        (FileIdentity.group FileType.unknown (env.resolve path0))
        false false none] := by
  unfold Remediator.remediate
  dsimp only
  rw [if_pos hd]
  simp only [he]

/-- Witness for C6 at a concrete environment and directory. -/
theorem remediate_empty_dir_witness :
    (envEmptyDir.is_dir (envEmptyDir.resolve "site") = true ∧
      envEmptyDir.iterate_files (envEmptyDir.resolve "site") = []) ∧
    (Remediator.remediate envEmptyDir fsA "site").1 =
      [RemediationResult.init (envEmptyDir.resolve "site")
        (FileIdentity.group FileType.unknown (envEmptyDir.resolve "site"))
        false false none] :=
  ⟨⟨by decide, by decide⟩,
    remediate_empty_dir envEmptyDir fsA "site" (by decide) (by decide)⟩

/-- C7: a `RemediationResult` constructed without an explicit target-path
argument records its own path as `target_path`. -/
theorem init_default_target_path (path : Path) (identity : FileIdentity)
    (known remediated : Bool) :
    (RemediationResult.init path identity known remediated
        none).target_path
      = (RemediationResult.init path identity known remediated none).path :=
  rfl

/-- C8: whenever the remote lookup raises an `ApiException`, the source
catches it, returns "not available" (`none`), and logs one warning naming
the failed lookup and the exception; nothing propagates to the caller. -/
theorem noc1_failure_not_propagated (showK : KnownFileIdentity → String)
    (client : Noc1Client) (identity : KnownFileIdentity)
    (e : ApiException)
    (h : noc1_lookup client identity = Except.error e) :
    Noc1RemediationSource.get_correct_content showK client identity =
      (none,
        [⟨LogLevel.warning,
          "Unable to fetch correct content for " ++ showK identity
            ++ " - " ++ e.message⟩]) := by
  unfold noc1_lookup at h
  unfold Noc1RemediationSource.get_correct_content
  dsimp only
  rcases hx : identity.extension with _ | ext <;>
    simp only [hx] at h ⊢ <;> simp [h]

/-- Witness for C8 at a concrete failing client and identity. -/
theorem noc1_failure_not_propagated_witness :
    noc1_lookup clientFail idCore = Except.error ⟨"HTTP 500"⟩ ∧
    Noc1RemediationSource.get_correct_content showKA clientFail idCore =
      (none,
        [⟨LogLevel.warning,
          "Unable to fetch correct content for " ++ showKA idCore
            ++ " - " ++ (ApiException.mk "HTTP 500").message⟩]) :=
  ⟨rfl,
    noc1_failure_not_propagated showKA clientFail idCore ⟨"HTTP 500"⟩ rfl⟩

/-- C9: the lookup behaviour of the source coincides with the reference
implementation written from the specification: the request is formed from
the file role, the relative path, and the core version from the site
context, with the extension name and version passed as the two extra
parameters exactly when the identity carries an extension. -/
theorem noc1_request_formation (showK : KnownFileIdentity → String)
    (client : Noc1Client) (identity : KnownFileIdentity) :
    Noc1RemediationSource.get_correct_content showK client identity =
      spec_get_correct_content showK client identity := by
  unfold Noc1RemediationSource.get_correct_content spec_get_correct_content
  rcases hx : identity.extension with _ | ext <;> simp [hx]

/-- C10: every result a directory input produces carries the resolved
directory root as its `target_path`; consequently `target_path` differs
from `path` for every file whose resolved path is not the root itself. -/
theorem remediate_dir_target_path (env : Env) (fs : FS) (path0 : Path)
    (hd : env.is_dir (env.resolve path0) = true)
    (r : RemediationResult)
    (hr : r ∈ (Remediator.remediate env fs path0).1) :
    r.target_path = env.resolve path0 ∧
    (r.path ≠ env.resolve path0 → r.target_path ≠ r.path) := by
  have ht : r.target_path = env.resolve path0 := by
    unfold Remediator.remediate at hr
    dsimp only at hr
    rw [if_pos hd] at hr
    rcases hf : env.iterate_files (env.resolve path0) with _ | ⟨f, rest⟩ <;>
      simp only [hf] at hr
    · simp at hr
      subst hr
      rfl
    · obtain ⟨g, fs0, hg⟩ :=
        mem_remediate_files env (env.resolve path0) (f :: rest) fs r hr
      subst hg
      simpa using
        remediate_file_target env fs0 (env.resolve g)
          (some (env.resolve path0))
  exact ⟨ht, fun hp hcontra => hp (hcontra.symm.trans ht)⟩

/-- Witness for C10 at a concrete directory environment. -/
theorem remediate_dir_target_path_witness :
    (envDir.is_dir (envDir.resolve "site") = true ∧
      rDir ∈ (Remediator.remediate envDir fsA "site").1) ∧
    (rDir.target_path = envDir.resolve "site" ∧
      (rDir.path ≠ envDir.resolve "site" →
        rDir.target_path ≠ rDir.path)) :=
  ⟨⟨by decide, by decide⟩,
    remediate_dir_target_path envDir fsA "site" (by decide) rDir
      (by decide)⟩

end Wordfence
